import Mathlib

/-!
# Verification of the cookie-box quantity discount function

A shallow embedding of `src/cart_lines_discounts_generate_run.js` from the
`fruitmans-pantry/shopify-functions` repository, together with theorems
checking the natural-language specification against it.

Modelling conventions:
* Monetary values are exact integer cents (`Int`).  Every constant in the
  source's configuration (`59.00`, `330.00`, …) is an exact multiple of a
  cent, and the arithmetic the source performs on them (`unitPrice *
  quantity - tierPrice` for quantities 6 and 12) is exact in IEEE doubles,
  so integer-cent arithmetic reproduces it bit-for-bit.
* JavaScript strings are Lean `String`s; `toLowerCase` is modelled by
  mapping `Char.toLower` over the characters, `trim` by dropping whitespace
  at both ends, and `includes` by substring containment, each implemented
  below as an executable function.
* Optional / nullable JavaScript fields become `Option`; the falsiness
  check `if (merchandise.boxSize?.value)` becomes a `none`-or-empty test.
* JavaScript objects that the function reads or builds become structures
  (`Merchandise`, `CartLine`, `FunctionInput`, `Candidate`, `Operation`,
  `RunResult`).  The single operation's `productDiscountsAdd` payload is
  modelled directly as the `Operation` structure.
-/

/-- `leadsWith s pat` is true when `pat` is an initial segment of `s`
(helper for substring containment). -/
def leadsWith : List Char → List Char → Bool
  | _, [] => true
  | [], _ :: _ => false
  | a :: as, b :: bs => a == b && leadsWith as bs

/-- `containsSub s pat` is true when `pat` occurs contiguously inside `s`;
models JavaScript's `String.prototype.includes`. -/
def containsSub : List Char → List Char → Bool
  | [], pat => pat.isEmpty
  | a :: rest, pat => leadsWith (a :: rest) pat || containsSub rest pat

/-- `strIncludes s pat`: JavaScript `s.includes(pat)`. -/
def strIncludes (s pat : String) : Bool :=
  containsSub s.data pat.data

/-- JavaScript `s.toLowerCase()` (ASCII-faithful: maps each character to
its lower-case form). -/
def lowerStr (s : String) : String :=
  ⟨s.data.map Char.toLower⟩

/-- JavaScript `s.trim()`: drop whitespace from both ends. -/
def trimStr (s : String) : String :=
  ⟨((s.data.dropWhile Char.isWhitespace).reverse.dropWhile Char.isWhitespace).reverse⟩

/-- One size category's pricing: the regular unit price and the bundle
totals for the recognized quantities, in cents.  Mirrors one entry of
`DISCOUNT_CONFIG` in the source. -/
structure PricingTier where
  unitPrice : Int
  tiers : List (Nat × Int)
  deriving DecidableEq

/-- `DISCOUNT_CONFIG` from the source: 500g boxes cost R59 a unit, R330
for 6 and R600 for 12; 1kg boxes cost R99 a unit, R540 for 6 and R1020
for 12 (all stored in cents). -/
def DISCOUNT_CONFIG : List (String × PricingTier) :=
  [("500g", { unitPrice := 5900, tiers := [(6, 33000), (12, 60000)] }),
   ("1kg",  { unitPrice := 9900, tiers := [(6, 54000), (12, 102000)] })]

/-- `SIZE_KEYWORDS` from the source: the keyword substrings recognized for
each size category, in declaration order. -/
def SIZE_KEYWORDS : List (String × List String) :=
  [("500g", ["500g", "500 g", "500gr", "0.5kg"]),
   ("1kg",  ["1kg", "1 kg", "1000g", "1000 g"])]

/-- One pass of the keyword loop that the source runs for each signal
source: walk `SIZE_KEYWORDS` in declaration order and return the first
category one of whose (lower-cased) keywords occurs in the signal. -/
def sizeFromSignal (signal : String) : Option String :=
  match SIZE_KEYWORDS.find? (fun p => p.2.any fun kw => strIncludes signal (lowerStr kw)) with
  | some p => some p.1
  | none => none

/-- The merchandise object of a cart line as the function reads it:
`__typename`, the optional `boxSize` metafield value, and the optional
`title` and `sku` strings. -/
structure Merchandise where
  typename : String
  boxSize : Option String
  title : Option String
  sku : Option String
  deriving DecidableEq

/-- The metafield block of `getSizeFromVariant`: if `boxSize?.value` is
present and non-empty (JavaScript truthiness), lower-case it, trim it and
run the keyword loop; a block that matches nothing falls through. -/
def metaSignalResult (m : Merchandise) : Option String :=
  match m.boxSize with
  | some v => if v = "" then none else sizeFromSignal (trimStr (lowerStr v))
  | none => none

/-- `getSizeFromVariant` from the source: try the `boxSize` metafield
value (if present and non-empty, lower-cased and trimmed), then the
lower-cased title, then the lower-cased sku; each source is tested with
the same keyword loop, and a source whose value matches no category falls
through to the next. -/
def getSizeFromVariant (m : Merchandise) : Option String :=
  match metaSignalResult m with
  | some size => some size
  | none =>
    match sizeFromSignal (lowerStr (m.title.getD "")) with
    | some size => some size
    | none => sizeFromSignal (lowerStr (m.sku.getD ""))

/-- The object `calculateDiscount` returns on success (all in cents). -/
structure DiscountInfo where
  amount : Int
  fullPrice : Int
  tierPrice : Int
  savings : Int
  deriving DecidableEq

/-- `DISCOUNT_CONFIG[size]` from the source. -/
def lookupConfig (size : String) : Option PricingTier :=
  (DISCOUNT_CONFIG.find? (fun p => p.1 == size)).map (fun p => p.2)

/-- `config.tiers[quantity]` from the source. -/
def lookupTier (config : PricingTier) (quantity : Nat) : Option Int :=
  (config.tiers.find? (fun p => p.1 == quantity)).map (fun p => p.2)

/-- `calculateDiscount` from the source: unknown size or a quantity with
no tier entry yields `none`; otherwise the discount is the full price
minus the tier price, and a non-positive discount also yields `none`. -/
def calculateDiscount (size : String) (quantity : Nat) : Option DiscountInfo :=
  match lookupConfig size with
  | none => none
  | some config =>
    match lookupTier config quantity with
    | none => none
    | some tierPrice =>
      let fullPrice := config.unitPrice * (quantity : Int)
      let discountAmount := fullPrice - tierPrice
      if discountAmount ≤ 0 then none
      else some { amount := discountAmount, fullPrice := fullPrice,
                  tierPrice := tierPrice, savings := discountAmount }

/-- JavaScript `x.toFixed(0)` on a value held in cents: round to the
nearest whole currency unit (every value the program passes here is an
exact whole number of units, so ties never arise). -/
def toFixed0 (cents : Int) : String :=
  if cents < 0 then "-" ++ toString ((cents.natAbs + 50) / 100)
  else toString ((cents.toNat + 50) / 100)

/-- JavaScript `x.toFixed(2)` on a value held in cents: the two-decimal
string (every value the program passes here is an exact number of cents). -/
def toFixed2 (cents : Int) : String :=
  let n := cents.natAbs
  let frac := n % 100
  (if cents < 0 then "-" else "")
    ++ toString (n / 100) ++ "."
    ++ (if frac < 10 then "0" else "") ++ toString frac

/-- `getDiscountMessage` from the source: the template literal
`quantity + "x " + size + " Bundle Deal - Save R" + savings.toFixed(0)`. -/
def getDiscountMessage (quantity : Nat) (size : String) (savings : Int) : String :=
  toString quantity ++ "x " ++ size ++ " Bundle Deal - Save R" ++ toFixed0 savings

/-- A cart line as the function reads it: id, quantity and the (possibly
missing) merchandise object. -/
structure CartLine where
  id : String
  quantity : Nat
  merchandise : Option Merchandise
  deriving DecidableEq

/-- The function input: `input.discount?.discountClasses` (collapsed to a
single `Option`, since a missing `discount` and a missing
`discountClasses` are indistinguishable downstream) and
`input.cart?.lines`. -/
structure FunctionInput where
  discountClasses : Option (List String)
  lines : Option (List CartLine)
  deriving DecidableEq

/-- One entry the source pushes onto `candidates`: the targeted cart-line
id, the message, and the fixed amount as its two-decimal string. -/
structure Candidate where
  targetLineId : String
  message : String
  amount : String
  deriving DecidableEq

/-- The `productDiscountsAdd` payload of the one emitted operation. -/
structure Operation where
  selectionStrategy : String
  candidates : List Candidate
  deriving DecidableEq

/-- The function's return value. -/
structure RunResult where
  operations : List Operation
  deriving DecidableEq

/-- The body of the source's per-line loop: skip a line whose merchandise
is missing or not a `ProductVariant`, classify its size, evaluate the
discount, and on success build the candidate that the source pushes. -/
def processLine (line : CartLine) : Option Candidate :=
  match line.merchandise with
  | none => none
  | some m =>
    if m.typename ≠ "ProductVariant" then none
    else
      match getSizeFromVariant m with
      | none => none
      | some size =>
        match calculateDiscount size line.quantity with
        | none => none
        | some discount =>
          some { targetLineId := line.id,
                 message := getDiscountMessage line.quantity size discount.savings,
                 amount := toFixed2 discount.amount }

/-- `input.discount?.discountClasses?.includes('PRODUCT')` from the source
(with the optional chain's `undefined` collapsed to `false`, exactly as
the source's `if (!hasProductDiscountClass)` treats it). -/
def hasProductDiscountClass (input : FunctionInput) : Bool :=
  (input.discountClasses.getD []).contains "PRODUCT"

/-- `cart_lines_discounts_generate_run` from the source: gate on the
PRODUCT discount class, collect one candidate per qualifying line in cart
order, and emit either no operation or a single `productDiscountsAdd`
operation with selection strategy `ALL`. -/
def cart_lines_discounts_generate_run (input : FunctionInput) : RunResult :=
  if !hasProductDiscountClass input then { operations := [] }
  else
    let candidates := (input.lines.getD []).filterMap processLine
    if candidates.isEmpty then { operations := [] }
    else { operations := [{ selectionStrategy := "ALL", candidates := candidates }] }

/-! ## Helper lemmas shared by several claims -/

/-- A successful `lookupConfig` yields one of the two configured tiers. -/
theorem lookupConfig_cases (size : String) (config : PricingTier)
    (h : lookupConfig size = some config) :
    config = { unitPrice := 5900, tiers := [(6, 33000), (12, 60000)] } ∨
    config = { unitPrice := 9900, tiers := [(6, 54000), (12, 102000)] } := by
  cases h1 : (("500g" : String) == size) <;>
    cases h2 : (("1kg" : String) == size) <;>
      simp [lookupConfig, DISCOUNT_CONFIG, List.find?, h1, h2] at h <;>
        simp [h]

/-- On success, `calculateDiscount` returns exactly the unit price times
the quantity minus the tier total, and that amount is strictly positive. -/
theorem calculateDiscount_amount_spec (size : String) (q : Nat)
    (config : PricingTier) (tierPrice : Int) (d : DiscountInfo)
    (hc : lookupConfig size = some config)
    (ht : lookupTier config q = some tierPrice)
    (h : calculateDiscount size q = some d) :
    d.amount = config.unitPrice * (q : Int) - tierPrice ∧ 0 < d.amount := by
  simp only [calculateDiscount, hc, ht] at h
  by_cases hle : config.unitPrice * (q : Int) - tierPrice ≤ 0
  · rw [if_pos hle] at h; cases h
  · rw [if_neg hle] at h
    injection h with h
    subst h
    exact ⟨rfl, not_le.mp hle⟩

/-- Any discount that `calculateDiscount` emits has a strictly positive
amount (the `discountAmount <= 0` guard). -/
theorem calculateDiscount_pos (size : String) (q : Nat) (d : DiscountInfo)
    (h : calculateDiscount size q = some d) : 0 < d.amount := by
  unfold calculateDiscount at h
  simp only [] at h
  split at h
  · cases h
  · split at h
    · cases h
    · split at h
      · cases h
      · next hle =>
          injection h with h
          subst h
          exact not_le.mp hle

/-! ## Claim theorems -/

/-- **C1**: for every size category (indeed every size string) and every
quantity that is not a key of the tier table — the only keys being 6 and
12 — `calculateDiscount` returns `none`; quantities adjacent to a tier
never receive a partial or interpolated discount. -/
theorem calculateDiscount_nonTier_none (size : String) (q : Nat)
    (h6 : q ≠ 6) (h12 : q ≠ 12) :
    calculateDiscount size q = none := by
  have hb6 : ((6 : Nat) == q) = false := by simp [Ne.symm h6]
  have hb12 : ((12 : Nat) == q) = false := by simp [Ne.symm h12]
  unfold calculateDiscount
  cases hc : lookupConfig size with
  | none => rfl
  | some config =>
    have htier : lookupTier config q = none := by
      rcases lookupConfig_cases size config hc with h | h <;>
        subst h <;> simp [lookupTier, List.find?, hb6, hb12]
    simp [htier]

/-- Witness for C1 at the concrete adjacent quantities 5, 7, 11, 13. -/
theorem calculateDiscount_nonTier_none_witness :
    calculateDiscount "500g" 5 = none ∧ calculateDiscount "500g" 7 = none ∧
    calculateDiscount "1kg" 11 = none ∧ calculateDiscount "1kg" 13 = none :=
  ⟨calculateDiscount_nonTier_none "500g" 5 (by decide) (by decide),
   calculateDiscount_nonTier_none "500g" 7 (by decide) (by decide),
   calculateDiscount_nonTier_none "1kg" 11 (by decide) (by decide),
   calculateDiscount_nonTier_none "1kg" 13 (by decide) (by decide)⟩

/-- **C2**: for each configured category and listed tier quantity,
`calculateDiscount` returns a strictly positive amount equal to
`unitPrice × q − tierTotal` (concretely R24, R108, R54 and R168, held in
cents), the amount renders as the expected two-decimal string, the
candidate a qualifying line produces carries that string, and a zero or
negative computed discount is never emitted. -/
theorem calculateDiscount_tiers_exact :
    calculateDiscount "500g" 6 =
      some { amount := 2400, fullPrice := 35400, tierPrice := 33000, savings := 2400 }
  ∧ calculateDiscount "500g" 12 =
      some { amount := 10800, fullPrice := 70800, tierPrice := 60000, savings := 10800 }
  ∧ calculateDiscount "1kg" 6 =
      some { amount := 5400, fullPrice := 59400, tierPrice := 54000, savings := 5400 }
  ∧ calculateDiscount "1kg" 12 =
      some { amount := 16800, fullPrice := 118800, tierPrice := 102000, savings := 16800 }
  ∧ toFixed2 2400 = "24.00" ∧ toFixed2 10800 = "108.00"
  ∧ toFixed2 5400 = "54.00" ∧ toFixed2 16800 = "168.00"
  ∧ processLine { id := "gid://shopify/CartLine/a", quantity := 6,
                  merchandise := some { typename := "ProductVariant", boxSize := none,
                                        title := some "Cookie Box 500g", sku := none } } =
      some { targetLineId := "gid://shopify/CartLine/a",
             message := "6x 500g Bundle Deal - Save R24", amount := "24.00" }
  ∧ (∀ size q config tierPrice d,
       lookupConfig size = some config →
       lookupTier config q = some tierPrice →
       calculateDiscount size q = some d →
       d.amount = config.unitPrice * (q : Int) - tierPrice)
  ∧ (∀ size q d, calculateDiscount size q = some d → 0 < d.amount) := by
  refine ⟨by decide, by decide, by decide, by decide, by decide, by decide, by decide,
    by decide, by decide, ?_, ?_⟩
  · exact fun size q config tierPrice d hc ht h =>
      (calculateDiscount_amount_spec size q config tierPrice d hc ht h).1
  · exact fun size q d h => calculateDiscount_pos size q d h

/-- Witness for C2: the universally quantified conjuncts instantiated at
the 500g category and quantity 6. -/
theorem calculateDiscount_tiers_exact_witness :
    ({ amount := 2400, fullPrice := 35400, tierPrice := 33000,
       savings := 2400 } : DiscountInfo).amount =
        (5900 : Int) * ((6 : Nat) : Int) - 33000
  ∧ 0 < ({ amount := 2400, fullPrice := 35400, tierPrice := 33000,
           savings := 2400 } : DiscountInfo).amount :=
  ⟨calculateDiscount_tiers_exact.2.2.2.2.2.2.2.2.2.1 "500g" 6
      { unitPrice := 5900, tiers := [(6, 33000), (12, 60000)] } 33000
      { amount := 2400, fullPrice := 35400, tierPrice := 33000, savings := 2400 }
      (by decide) (by decide) (by decide),
   calculateDiscount_tiers_exact.2.2.2.2.2.2.2.2.2.2 "500g" 6
      { amount := 2400, fullPrice := 35400, tierPrice := 33000, savings := 2400 }
      (by decide)⟩

/-- Every candidate `processLine` builds targets exactly its own line's
id. -/
theorem processLine_targets_line_id (line : CartLine) (c : Candidate)
    (h : processLine line = some c) : c.targetLineId = line.id := by
  unfold processLine at h
  split at h
  · cases h
  · split at h
    · cases h
    · split at h
      · cases h
      · split at h
        · cases h
        · injection h with h
          subst h
          rfl

/-- The number of candidates the per-line loop collects equals the number
of lines on which `processLine` succeeds. -/
theorem filterMap_processLine_length (l : List CartLine) :
    (l.filterMap processLine).length
      = l.countP (fun line => (processLine line).isSome) := by
  induction l with
  | nil => rfl
  | cons a l ih =>
    cases hpa : processLine a <;>
      simp [List.filterMap_cons, List.countP_cons, hpa, ih]

/-- **C3**: under the PRODUCT gate, if no cart line yields a decision the
function returns an empty operations list; otherwise it returns exactly
one operation whose selection strategy is `ALL` and whose candidates are
the per-line decisions in the cart's input order — one candidate per
qualifying line, each targeting that line's id. -/
theorem run_aggregates_all_qualifying (input : FunctionInput)
    (hgate : hasProductDiscountClass input = true) :
    ((input.lines.getD []).filterMap processLine = [] →
      (cart_lines_discounts_generate_run input).operations = [])
  ∧ ((input.lines.getD []).filterMap processLine ≠ [] →
      (cart_lines_discounts_generate_run input).operations =
        [{ selectionStrategy := "ALL",
           candidates := (input.lines.getD []).filterMap processLine }])
  ∧ (∀ c ∈ (input.lines.getD []).filterMap processLine,
      ∃ line ∈ input.lines.getD [],
        processLine line = some c ∧ c.targetLineId = line.id)
  ∧ ((input.lines.getD []).filterMap processLine).length
      = (input.lines.getD []).countP (fun line => (processLine line).isSome) := by
  refine ⟨?_, ?_, ?_, filterMap_processLine_length _⟩
  · intro hnone
    simp [cart_lines_discounts_generate_run, hgate, hnone]
  · intro hne
    simp only [cart_lines_discounts_generate_run, hgate, Bool.not_true, Bool.false_eq_true,
      if_false]
    rw [if_neg (by simpa [List.isEmpty_iff] using hne)]
  · intro c hc
    rw [List.mem_filterMap] at hc
    obtain ⟨line, hl, hpl⟩ := hc
    exact ⟨line, hl, hpl, processLine_targets_line_id line c hpl⟩

/-- Witness for C3: a concrete two-line cart — 6 × 500g and 6 × 1kg —
produces the single `ALL` operation with one candidate per line, in cart
order. -/
theorem run_aggregates_all_qualifying_witness :
    (cart_lines_discounts_generate_run
      { discountClasses := some ["PRODUCT"],
        lines := some
          [{ id := "gid://shopify/CartLine/1", quantity := 6,
             merchandise := some { typename := "ProductVariant", boxSize := none,
                                   title := some "Cookie Box 500g", sku := none } },
           { id := "gid://shopify/CartLine/2", quantity := 6,
             merchandise := some { typename := "ProductVariant", boxSize := none,
                                   title := some "Cookie Box 1kg", sku := none } }] }).operations
    = [{ selectionStrategy := "ALL",
         candidates :=
           [{ targetLineId := "gid://shopify/CartLine/1",
              message := "6x 500g Bundle Deal - Save R24", amount := "24.00" },
            { targetLineId := "gid://shopify/CartLine/2",
              message := "6x 1kg Bundle Deal - Save R54", amount := "54.00" }] }] :=
  (run_aggregates_all_qualifying _ (by decide)).2.1 (by decide)

/-- **C4**: classification follows the fixed priority tag → title → sku:
whenever the `boxSize` metafield value is present, non-empty and matches
some category via the keyword loop, `getSizeFromVariant` returns that
category for any title and sku whatsoever — the first source with a
match wins and sources are never merged or cross-checked. -/
theorem metafield_signal_priority (m : Merchandise) (v cat : String)
    (hbox : m.boxSize = some v) (hne : v ≠ "")
    (hmatch : sizeFromSignal (trimStr (lowerStr v)) = some cat) :
    getSizeFromVariant m = some cat := by
  unfold getSizeFromVariant
  have hmeta : metaSignalResult m = some cat := by
    simp [metaSignalResult, hbox, hne, hmatch]
  rw [hmeta]

/-- Witness for C4: a metafield saying 500g beats a title and sku that
both say 1kg. -/
theorem metafield_signal_priority_witness :
    getSizeFromVariant
      { typename := "ProductVariant", boxSize := some "500g",
        title := some "Chocolate Chip 1kg Box", sku := some "COOKIE-1KG" }
      = some "500g" :=
  metafield_signal_priority _ "500g" "500g" rfl (by decide) (by decide)

/-- **C5**: when the declared discount classes do not include `PRODUCT`
(including an absent list), the function returns an empty operations list
regardless of cart contents. -/
theorem ineligible_invocation_empty (input : FunctionInput)
    (h : hasProductDiscountClass input = false) :
    cart_lines_discounts_generate_run input = { operations := [] } := by
  simp [cart_lines_discounts_generate_run, h]

/-- Witness for C5: an invocation with only the ORDER class, over a cart
line that would otherwise qualify, produces no operations. -/
theorem ineligible_invocation_empty_witness :
    cart_lines_discounts_generate_run
      { discountClasses := some ["ORDER"],
        lines := some
          [{ id := "gid://shopify/CartLine/z", quantity := 6,
             merchandise := some { typename := "ProductVariant", boxSize := none,
                                   title := some "Cookie Box 500g", sku := none } }] }
      = { operations := [] } :=
  ineligible_invocation_empty _ (by decide)

/-- **C6**: the function is total, and a malformed or non-qualifying line
is skipped while every other line is still processed: deleting a line on
which `processLine` fails does not change the result; a line with missing
merchandise, a non-variant merchandise, an unmatchable size, or an
off-tier quantity is exactly such a line; and the worst case overall is
the empty operations list (never more than one operation). -/
theorem run_total_malformed_skipped (classes : Option (List String))
    (pre post : List CartLine) (bad : CartLine)
    (hbad : processLine bad = none) :
    (cart_lines_discounts_generate_run
        { discountClasses := classes, lines := some (pre ++ bad :: post) }
      = cart_lines_discounts_generate_run
        { discountClasses := classes, lines := some (pre ++ post) })
  ∧ (∀ line : CartLine, line.merchandise = none → processLine line = none)
  ∧ (∀ (line : CartLine) (m : Merchandise), line.merchandise = some m →
      m.typename ≠ "ProductVariant" → processLine line = none)
  ∧ (∀ (line : CartLine) (m : Merchandise), line.merchandise = some m →
      m.typename = "ProductVariant" → getSizeFromVariant m = none →
      processLine line = none)
  ∧ (∀ (line : CartLine) (m : Merchandise) (size : String),
      line.merchandise = some m → m.typename = "ProductVariant" →
      getSizeFromVariant m = some size →
      calculateDiscount size line.quantity = none → processLine line = none)
  ∧ (∀ inp : FunctionInput,
      (cart_lines_discounts_generate_run inp).operations.length ≤ 1) := by
  refine ⟨?_, ?_, ?_, ?_, ?_, ?_⟩
  · have hfm : (pre ++ bad :: post).filterMap processLine
        = (pre ++ post).filterMap processLine := by
      simp [List.filterMap_append, List.filterMap_cons, hbad]
    simp [cart_lines_discounts_generate_run, hasProductDiscountClass, hfm]
  · intro line h
    simp [processLine, h]
  · intro line m h ht
    simp [processLine, h, ht]
  · intro line m h ht hsize
    simp [processLine, h, ht, hsize]
  · intro line m size h ht hsize hcalc
    simp [processLine, h, ht, hsize, hcalc]
  · intro inp
    unfold cart_lines_discounts_generate_run
    split
    · simp
    · simp only []
      split <;> simp

/-- Witness for C6: dropping a concrete merchandise-less line from a
two-line cart leaves the result unchanged, and a merchandise-less line is
indeed skipped. -/
theorem run_total_malformed_skipped_witness :
    (cart_lines_discounts_generate_run
        { discountClasses := some ["PRODUCT"],
          lines := some
            [{ id := "gid://shopify/CartLine/good", quantity := 6,
               merchandise := some { typename := "ProductVariant", boxSize := none,
                                     title := some "Cookie Box 500g", sku := none } },
             { id := "gid://shopify/CartLine/bad", quantity := 6,
               merchandise := none }] }
      = cart_lines_discounts_generate_run
        { discountClasses := some ["PRODUCT"],
          lines := some
            [{ id := "gid://shopify/CartLine/good", quantity := 6,
               merchandise := some { typename := "ProductVariant", boxSize := none,
                                     title := some "Cookie Box 500g", sku := none } }] })
  ∧ processLine { id := "gid://shopify/CartLine/bad", quantity := 6,
                  merchandise := none } = none :=
  ⟨(run_total_malformed_skipped (some ["PRODUCT"])
      [{ id := "gid://shopify/CartLine/good", quantity := 6,
         merchandise := some { typename := "ProductVariant", boxSize := none,
                               title := some "Cookie Box 500g", sku := none } }]
      [] { id := "gid://shopify/CartLine/bad", quantity := 6, merchandise := none }
      (by decide)).1,
   (run_total_malformed_skipped (some ["PRODUCT"]) [] []
      { id := "gid://shopify/CartLine/bad", quantity := 6, merchandise := none }
      (by decide)).2.1 _ rfl⟩

/-- Lower-casing a string preserves emptiness. -/
theorem lowerStr_eq_empty_iff (v : String) : lowerStr v = "" ↔ v = "" := by
  cases v with
  | mk data =>
    cases data with
    | nil => exact ⟨fun _ => rfl, fun _ => rfl⟩
    | cons c cs =>
      constructor <;> intro h <;> exact absurd (congrArg String.data h) (by simp [lowerStr])

/-- The metafield block only looks at the lower-cased `boxSize` value. -/
theorem metaSignalResult_congr (m m' : Merchandise)
    (h : m.boxSize.map lowerStr = m'.boxSize.map lowerStr) :
    metaSignalResult m = metaSignalResult m' := by
  unfold metaSignalResult
  cases hb : m.boxSize with
  | none =>
    cases hb' : m'.boxSize with
    | none => rfl
    | some v' => rw [hb, hb'] at h; simp at h
  | some v =>
    cases hb' : m'.boxSize with
    | none => rw [hb, hb'] at h; simp at h
    | some v' =>
      rw [hb, hb'] at h
      simp only [Option.map_some', Option.some.injEq] at h
      by_cases he : v = ""
      · have he' : v' = "" := by
          rw [← lowerStr_eq_empty_iff, ← h, lowerStr_eq_empty_iff]
          exact he
        simp [he, he']
      · have he' : v' ≠ "" := by
          intro hh
          apply he
          rw [← lowerStr_eq_empty_iff, h, lowerStr_eq_empty_iff]
          exact hh
        simp [he, he', h]

/-- Two optional signals with the same lower-cased content read the same
after the source's `(x || '')` defaulting. -/
theorem lowerStr_getD_congr (a b : Option String)
    (h : a.map lowerStr = b.map lowerStr) :
    lowerStr (a.getD "") = lowerStr (b.getD "") := by
  cases a with
  | none =>
    cases b with
    | none => rfl
    | some y => simp at h
  | some x =>
    cases b with
    | none => simp at h
    | some y =>
      simp only [Option.map_some', Option.some.injEq] at h
      simpa using h

/-- **C7**: keyword matching is case-insensitive and
whitespace-normalized: two merchandises whose signals agree up to letter
case classify identically, and the near-variants `"500g"`, `"500 g"`,
`"0.5kg"` resolve to the 500g category while `"1kg"`, `"1 kg"`,
`"1000g"`, `"1000 g"` resolve to the 1kg category. -/
theorem classification_case_insensitive (m m' : Merchandise)
    (hbox : m.boxSize.map lowerStr = m'.boxSize.map lowerStr)
    (hti : m.title.map lowerStr = m'.title.map lowerStr)
    (hsku : m.sku.map lowerStr = m'.sku.map lowerStr) :
    getSizeFromVariant m = getSizeFromVariant m'
  ∧ getSizeFromVariant { typename := "ProductVariant", boxSize := none,
                         title := some "500g", sku := none } = some "500g"
  ∧ getSizeFromVariant { typename := "ProductVariant", boxSize := none,
                         title := some "500 g", sku := none } = some "500g"
  ∧ getSizeFromVariant { typename := "ProductVariant", boxSize := none,
                         title := some "0.5kg", sku := none } = some "500g"
  ∧ getSizeFromVariant { typename := "ProductVariant", boxSize := none,
                         title := some "1kg", sku := none } = some "1kg"
  ∧ getSizeFromVariant { typename := "ProductVariant", boxSize := none,
                         title := some "1 kg", sku := none } = some "1kg"
  ∧ getSizeFromVariant { typename := "ProductVariant", boxSize := none,
                         title := some "1000g", sku := none } = some "1kg"
  ∧ getSizeFromVariant { typename := "ProductVariant", boxSize := none,
                         title := some "1000 g", sku := none } = some "1kg"
  ∧ getSizeFromVariant { typename := "ProductVariant", boxSize := none,
                         title := some "COOKIE BOX 500G", sku := none } = some "500g" := by
  refine ⟨?_, by decide, by decide, by decide, by decide, by decide, by decide,
    by decide, by decide⟩
  unfold getSizeFromVariant
  rw [metaSignalResult_congr m m' hbox, lowerStr_getD_congr _ _ hti,
      lowerStr_getD_congr _ _ hsku]

/-- Witness for C7: an upper-cased and a lower-cased title classify the
same. -/
theorem classification_case_insensitive_witness :
    getSizeFromVariant { typename := "ProductVariant", boxSize := none,
                         title := some "COOKIE BOX 1KG", sku := none }
      = getSizeFromVariant { typename := "ProductVariant", boxSize := none,
                             title := some "cookie box 1kg", sku := none } :=
  (classification_case_insensitive _ _ (by decide) (by decide) (by decide)).1

/-- **C8**: a signal that matches the keyword sets of both categories is
resolved by category declaration order — the first declared category,
500g, wins. -/
theorem declaration_order_tiebreak (t : String)
    (h500 : (["500g", "500 g", "500gr", "0.5kg"].any
        fun kw => strIncludes t (lowerStr kw)) = true)
    (_h1kg : (["1kg", "1 kg", "1000g", "1000 g"].any
        fun kw => strIncludes t (lowerStr kw)) = true) :
    sizeFromSignal t = some "500g"
  ∧ getSizeFromVariant { typename := "ProductVariant", boxSize := none,
                         title := some "Cookie Box 500g and 1kg", sku := none }
      = some "500g" := by
  constructor
  · simp [sizeFromSignal, SIZE_KEYWORDS, List.find?, h500]
  · decide

/-- Witness for C8: a lower-cased title mentioning both sizes. -/
theorem declaration_order_tiebreak_witness :
    sizeFromSignal "cookie box 500g and 1kg" = some "500g" :=
  (declaration_order_tiebreak "cookie box 500g and 1kg" (by decide) (by decide)).1

/-- **C9**: `getDiscountMessage` renders exactly the template
`"<quantity>x <category> Bundle Deal - Save R<savings rounded to the
whole currency unit>"`; a qualifying 6 × 500g line gets the message
`"6x 500g Bundle Deal - Save R24"`. -/
theorem message_template (q : Nat) (size : String) (savings : Int) :
    getDiscountMessage q size savings
      = toString q ++ "x " ++ size ++ " Bundle Deal - Save R" ++ toFixed0 savings
  ∧ getDiscountMessage 6 "500g" 2400 = "6x 500g Bundle Deal - Save R24"
  ∧ (processLine { id := "gid://shopify/CartLine/m", quantity := 6,
                   merchandise := some { typename := "ProductVariant", boxSize := none,
                                         title := some "Vanilla 500g", sku := none } }).map
      Candidate.message = some "6x 500g Bundle Deal - Save R24" :=
  ⟨rfl, by decide, by decide⟩

/-- **C10**: keyword matching is substring containment over the whole
signal, so a title that merely contains `"500g"` as an infix — `"1500g"`
or `"2500g"` — is classified as 500g, and such a line at quantity 6 or 12
receives the 500g-tier discount. -/
theorem substring_misclassification :
    getSizeFromVariant { typename := "ProductVariant", boxSize := none,
                         title := some "Cookie Box 1500g", sku := none } = some "500g"
  ∧ getSizeFromVariant { typename := "ProductVariant", boxSize := none,
                         title := some "Cookie Box 2500g", sku := none } = some "500g"
  ∧ processLine { id := "gid://shopify/CartLine/x", quantity := 6,
                  merchandise := some { typename := "ProductVariant", boxSize := none,
                                        title := some "Cookie Box 1500g", sku := none } }
      = some { targetLineId := "gid://shopify/CartLine/x",
               message := "6x 500g Bundle Deal - Save R24", amount := "24.00" }
  ∧ processLine { id := "gid://shopify/CartLine/y", quantity := 12,
                  merchandise := some { typename := "ProductVariant", boxSize := none,
                                        title := some "Cookie Box 2500g", sku := none } }
      = some { targetLineId := "gid://shopify/CartLine/y",
               message := "12x 500g Bundle Deal - Save R108", amount := "108.00" } :=
  ⟨by decide, by decide, by decide, by decide⟩
